import Mathlib

/-!
Shallow embedding of the calculation engine of the electrical-load-calculator
repository (`src/utils/calculations.js`), together with theorems checking the
natural-language specification against it.

Modelling conventions:
* JavaScript numbers are embedded as `ℚ` (all arithmetic in the engine is
  exact decimal arithmetic on small quantities); slot and unit counts are `ℤ`.
* `Math.round` is `jsRound`, `Math.ceil` is `⌈⌉`, `Math.floor` on integers is
  `Int.fdiv`.
* Nullable JS values are `Option`; the `x || d` idiom (which treats both
  `null` and `0` as falsy) is `Option.getD` when `d = 0`, and `jsOrInt` when
  `d ≠ 0`.
* `String.prototype.includes` is `jsIncludes`, implemented by an explicit
  character-list containment check; `String.prototype.replace` with a plain
  string pattern (first occurrence only) is `jsReplace`.
-/

namespace LoadCalc

/-- Does the first character list occur as a leading segment of the second? -/
def charStartsWith : List Char → List Char → Bool
  | [], _ => true
  | _ :: _, [] => false
  | a :: as, b :: bs => a == b && charStartsWith as bs

/-- Does `needle` occur as a contiguous segment of `hay`? -/
def charSeqContains (needle : List Char) (hay : List Char) : Bool :=
  match hay with
  | [] => charStartsWith needle []
  | _ :: rest => charStartsWith needle hay || charSeqContains needle rest

/-- JS `hay.includes(sub)`. -/
def jsIncludes (hay sub : String) : Bool := charSeqContains sub.toList hay.toList

/-- Replace the first occurrence of `pat` by `repl`, on character lists. -/
def replaceFirstAux (pat repl : List Char) : List Char → List Char
  | [] => []
  | c :: rest =>
    if charStartsWith pat (c :: rest) then repl ++ (c :: rest).drop pat.length
    else c :: replaceFirstAux pat repl rest

/-- JS `s.replace(pat, repl)` with a plain-string pattern: first occurrence only. -/
def jsReplace (s pat repl : String) : String :=
  ⟨replaceFirstAux pat.toList repl.toList s.toList⟩

/-- JS `Math.round`: round half toward positive infinity. -/
def jsRound (q : ℚ) : ℤ := ⌊q + 1 / 2⌋

/-- JS `x || d` for a nullable integer with a nonzero default (`0` is falsy). -/
def jsOrInt (x : Option ℤ) (d : ℤ) : ℤ :=
  match x with
  | none => d
  | some v => if v = 0 then d else v

/-! ## Data model (§3 of the spec) -/

/-- `load.breaker`. -/
structure Breaker where
  poles : ℕ
  amps : ℚ
  btype : String
  voltageOverride : Option ℚ
  deriving DecidableEq

/-- `load.usage`. -/
structure Usage where
  assumedWatts : ℚ
  hoursPerDay : ℚ
  includeInServiceCalc : Bool
  includeInBatteryCalc : Bool
  deriving DecidableEq

/-- `load.motor`. -/
structure MotorInfo where
  isMotor : Bool
  lra : Option ℚ
  deriving DecidableEq

/-- One circuit entry of the load list. -/
structure Load where
  id : String
  category : String
  breaker : Breaker
  usage : Usage
  motor : MotorInfo
  deriving DecidableEq

/-- `panel.tandemPolicy`. -/
structure TandemPolicy where
  allowedPositions : String
  customMaxTandemSlots : Option ℤ
  deriving DecidableEq

/-- Panel configuration. -/
structure Panel where
  totalSlots : ℤ
  usedSlots : ℤ
  tandemSlotsUsed : ℤ
  tandemsAllowed : String
  tandemPolicy : TandemPolicy
  deriving DecidableEq

/-- Service configuration. -/
structure Service where
  serviceVoltage : ℚ
  mainBreakerAmps : ℚ
  busRatingAmps : ℚ
  deriving DecidableEq

/-! ## Panel slot accounting (`calculatePanelSlots`, `calculateModeledSlots`) -/

/-- Result record of `calculatePanelSlots`. -/
structure PanelSlotsResult where
  availableSlots : ℤ
  tandemCapableSlots : ℤ
  canFreeSlotsWithTandems : Bool
  deriving DecidableEq

/-- `calculatePanelSlots(panel)` from `src/utils/calculations.js`. -/
def calculatePanelSlots (panel : Panel) : PanelSlotsResult :=
  let availableSlots := panel.totalSlots - panel.usedSlots
  let tandemCapableSlots : ℤ :=
    if panel.tandemsAllowed == "Allowed" then
      if panel.tandemPolicy.allowedPositions == "All slots" then panel.totalSlots
      else if panel.tandemPolicy.allowedPositions == "Bottom half only" then
        Int.fdiv panel.totalSlots 2
      else if panel.tandemPolicy.allowedPositions == "Custom" then
        panel.tandemPolicy.customMaxTandemSlots.getD 0
      else 0
    else 0
  { availableSlots := availableSlots,
    tandemCapableSlots := tandemCapableSlots,
    canFreeSlotsWithTandems :=
      panel.tandemsAllowed == "Allowed" && decide (0 < tandemCapableSlots) }

/-- `calculateModeledSlots(loads)`: tandem = 1 slot, otherwise `poles` slots. -/
def calculateModeledSlots (loads : List Load) : ℤ :=
  loads.foldl
    (fun s l =>
      s + (if l.breaker.btype == "Tandem" then 1 else if l.breaker.poles = 2 then 2 else 1))
    0

/-! ## NEC Optional Method (`calculateNECOptionalMethod`) -/

/-- Sum of `usage.assumedWatts` over a load list (the `reduce` pattern of the source). -/
def sumAssumedWatts (loads : List Load) : ℚ :=
  loads.foldl (fun s l => s + l.usage.assumedWatts) 0

/-- The general-lighting category string. -/
def lightingCategory : String := "General Lighting/Receptacles"

/-- Step 1 fallback: sum of general-lighting loads, or 4500 VA when that sum is 0. -/
def necLightingFallback (loads : List Load) : ℚ :=
  let v := sumAssumedWatts (loads.filter (fun l => l.category == lightingCategory))
  if v = 0 then 4500 else v

/-- Step 1: general lighting at 3 VA/sqft when square footage is known and positive. -/
def necGeneralLoadVA (loads : List Load) (sqFt : Option ℚ) : ℚ :=
  match sqFt with
  | some s => if 0 < s then s * 3 else necLightingFallback loads
  | none => necLightingFallback loads

/-- Step 2: `generalTotal = generalLoadVA + 3000 (small appliance) + 1500 (laundry)`. -/
def necGeneralTotal (loads : List Load) (sqFt : Option ℚ) : ℚ :=
  necGeneralLoadVA loads sqFt + 3000 + 1500

/-- Step 3: demand factor on the general total — first 10000 VA at 100%, rest at 40%. -/
def demandGeneralFn (generalTotal : ℚ) : ℚ :=
  if generalTotal ≤ 10000 then generalTotal else 10000 + (generalTotal - 10000) * 0.4

/-- The `fixedCategories` array of the source. -/
def fixedCategories : List String :=
  ["Dishwasher", "Garbage Disposal", "Microwave", "Clothes Washer",
   "Water Heater (Electric)", "Dehumidifier"]

/-- Step 4 membership: `fixedCategories.some(c => category.includes(c.replace('Electric ', '')))`. -/
def isFixedCategory (cat : String) : Bool :=
  fixedCategories.any (fun c => jsIncludes cat (jsReplace c "Electric " ""))

/-- Step 4: fixed-appliance VA, with a 0.75 factor when four or more are present. -/
def necFixedLoadVA (loads : List Load) : ℚ :=
  let fl := loads.filter (fun l => isFixedCategory l.category)
  let s := sumAssumedWatts fl
  if 4 ≤ fl.length then s * 0.75 else s

/-- Step 5 membership: `category === 'Range/Oven' || category === 'Cooktop'`. -/
def isCookingCategory (cat : String) : Bool :=
  cat == "Range/Oven" || cat == "Cooktop"

/-- Step 5: cooking demand — flat 8000 VA for a single appliance of at most 12000 W,
otherwise 65% of the summed cooking watts. -/
def necCookingDemand (loads : List Load) : ℚ :=
  let cl := loads.filter (fun l => isCookingCategory l.category)
  if 0 < cl.length then
    let t := sumAssumedWatts cl
    if cl.length = 1 ∧ t ≤ 12000 then 8000 else t * 0.65
  else 0

/-- Step 6: dryer demand — `max(5000, sum)` when any dryer load exists. -/
def necDryerDemand (loads : List Load) : ℚ :=
  let dl := loads.filter (fun l => l.category == "Electric Dryer")
  if 0 < dl.length then max 5000 (sumAssumedWatts dl) else 0

/-- Step 7 cooling membership. -/
def isCoolingCategory (cat : String) : Bool :=
  cat == "AC Condenser" || cat == "Heat Pump" || cat == "Air Handler"

/-- Step 7 heating membership: substring containment of `Furnace` or `Boiler`. -/
def isHeatingCategory (cat : String) : Bool :=
  jsIncludes cat "Furnace" || jsIncludes cat "Boiler"

/-- Step 7: HVAC demand is the larger of summed cooling and summed heating. -/
def necHvacDemand (loads : List Load) : ℚ :=
  max (sumAssumedWatts (loads.filter (fun l => isCoolingCategory l.category)))
    (sumAssumedWatts (loads.filter (fun l => isHeatingCategory l.category)))

/-- Step 8 membership.  The source excludes by `Array.prototype.includes` on the
bucket arrays built from the same load objects, which is equivalent to the bucket
filter predicates themselves. -/
def isOtherLargeCategory (cat : String) : Bool :=
  !isFixedCategory cat && !isCookingCategory cat && !(cat == "Electric Dryer") &&
  !isCoolingCategory cat && !isHeatingCategory cat &&
  !(cat == lightingCategory) && !(cat == "EV Charger")

/-- Step 8: all remaining loads at full value. -/
def necOtherLargeVA (loads : List Load) : ℚ :=
  sumAssumedWatts (loads.filter (fun l => isOtherLargeCategory l.category))

/-- EV charger loads, summed separately at full value. -/
def necEvVA (loads : List Load) : ℚ :=
  sumAssumedWatts (loads.filter (fun l => l.category == "EV Charger"))

/-- Step 10: total demand in VA. -/
def necTotalDemandVA (loads : List Load) (sqFt : Option ℚ) : ℚ :=
  demandGeneralFn (necGeneralTotal loads sqFt) + necFixedLoadVA loads +
    necCookingDemand loads + necDryerDemand loads + necHvacDemand loads +
    necOtherLargeVA loads + necEvVA loads

/-- Rounded per-bucket breakdown of the NEC result. -/
structure NECBreakdown where
  generalAndSmallAppliance : ℤ
  fixedAppliances : ℤ
  cooking : ℤ
  dryer : ℤ
  hvac : ℤ
  otherLarge : ℤ
  ev : ℤ
  deriving DecidableEq

/-- Result record of `calculateNECOptionalMethod`.  The source field `ratio`
(the utilization percentage, rounded) is named `ratioPercent` here. -/
structure NECResult where
  totalDemandVA : ℚ
  totalDemandKVA : ℚ
  serviceAmps : ℚ
  status : String
  ratioPercent : ℤ
  breakdown : NECBreakdown
  deriving DecidableEq

/-- `calculateNECOptionalMethod(loads, service, sqFt)` from `src/utils/calculations.js`. -/
def calculateNECOptionalMethod (loads : List Load) (service : Service)
    (sqFt : Option ℚ) : NECResult :=
  let totalDemandVA := necTotalDemandVA loads sqFt
  let serviceAmps := totalDemandVA / service.serviceVoltage
  let r := serviceAmps / service.mainBreakerAmps
  { totalDemandVA := totalDemandVA,
    totalDemandKVA := totalDemandVA / 1000,
    serviceAmps := (jsRound (serviceAmps * 10) : ℚ) / 10,
    status := if 1 < r then "Undersized" else if 0.8 < r then "Borderline" else "OK",
    ratioPercent := jsRound (r * 100),
    breakdown :=
      { generalAndSmallAppliance := jsRound (demandGeneralFn (necGeneralTotal loads sqFt)),
        fixedAppliances := jsRound (necFixedLoadVA loads),
        cooking := jsRound (necCookingDemand loads),
        dryer := jsRound (necDryerDemand loads),
        hvac := jsRound (necHvacDemand loads),
        otherLarge := jsRound (necOtherLargeVA loads),
        ev := jsRound (necEvVA loads) } }

/-! ## Practical summed model (`calculatePracticalLoad`) -/

/-- Result record of `calculatePracticalLoad`. -/
structure PracticalResult where
  totalRunningWatts : ℚ
  totalRunningKW : ℚ
  totalDailyWh : ℚ
  totalDailyKWh : ℚ
  largestMotorWatts : ℚ
  largestMotorLRA : ℚ
  motorLoads : ℕ
  deriving DecidableEq

/-- `calculatePracticalLoad(loads, includeLoadIds)` from `src/utils/calculations.js`. -/
def calculatePracticalLoad (loads : List Load)
    (includeLoadIds : Option (List String)) : PracticalResult :=
  let filteredLoads :=
    match includeLoadIds with
    | some ids => loads.filter (fun l => ids.contains l.id)
    | none => loads
  let totalRunningWatts := sumAssumedWatts filteredLoads
  let totalDailyWh :=
    filteredLoads.foldl (fun s l => s + l.usage.assumedWatts * l.usage.hoursPerDay) 0
  let motorLoads := filteredLoads.filter (fun l => l.motor.isMotor)
  { totalRunningWatts := totalRunningWatts,
    totalRunningKW := totalRunningWatts / 1000,
    totalDailyWh := totalDailyWh,
    totalDailyKWh := totalDailyWh / 1000,
    largestMotorWatts := motorLoads.foldl (fun m l => max m l.usage.assumedWatts) 0,
    largestMotorLRA := motorLoads.foldl (fun m l => max m (l.motor.lra.getD 0)) 0,
    motorLoads := motorLoads.length }

/-! ## Battery sizing engine (`calculateBatterySizing`) -/

/-- Per-product battery specification (usable kWh, continuous kW, motor-start LRA
rating, maximum unit count).  The Enphase 5P line never has its `motorStartLRA`
read by the engine. -/
structure ProductSpec where
  usableKWh : ℚ
  continuousKW : ℚ
  motorStartLRA : ℚ
  maxUnits : ℤ
  deriving DecidableEq

/-- Tesla Powerwall 3 leader specification. -/
structure PW3Spec where
  usableKWh : ℚ
  continuousKW : ℚ
  motorStartLRA : ℚ
  maxLeaders : ℤ
  deriving DecidableEq

/-- Tesla Powerwall 3 expansion-pack specification. -/
structure ExpansionSpec where
  usableKWh : ℚ
  maxPerLeader : ℤ
  deriving DecidableEq

/-- The shape of the static `BATTERY_SPECS` reference table. -/
structure BatterySpecs where
  enphase5P : ProductSpec
  enphase10C : ProductSpec
  teslaPW3 : PW3Spec
  teslaPW3Expansion : ExpansionSpec
  deriving DecidableEq

/-- Modelled from the spec: the concrete `BATTERY_SPECS` table lives in
`src/data/loadLibrary.js`, which is not among the provided source files.  The
spec fixes its shape (§3 BatterySpec, §6 static reference tables) and fixes
`usableKWh = 5` for the Enphase 5P (§8 scenario); the remaining entries are
representative positive constants.  Every universally-quantified theorem below
is stated for an arbitrary table; only concrete witnesses and counterexamples
evaluate this one. -/
def BATTERY_SPECS : BatterySpecs :=
  { enphase5P := { usableKWh := 5, continuousKW := 3.84, motorStartLRA := 0, maxUnits := 16 },
    enphase10C := { usableKWh := 10, continuousKW := 7.08, motorStartLRA := 41.4, maxUnits := 12 },
    teslaPW3 := { usableKWh := 13.5, continuousKW := 11.5, motorStartLRA := 185, maxLeaders := 4 },
    teslaPW3Expansion := { usableKWh := 13.5, maxPerLeader := 3 } }

/-- Options record of `calculateBatterySizing`.  A partial-home selection entry is
modelled by the `(load id, hoursPerDay)` pair the engine reads from it. -/
structure SizingOptions where
  includeLoadIds : Option (List String) := none
  solarOffsetPercent : ℚ := 0
  proposedEVLoads : Option (List Load) := none
  partialSelections : Option (List (String × ℚ)) := none
  deriving DecidableEq

/-- Lookup of `options.partialSelections[l.id]`. -/
def lookupSelection (sels : List (String × ℚ)) (id : String) : Option ℚ :=
  (sels.find? (fun p => p.1 == id)).map (fun p => p.2)

/-- The filtered (and hour-overridden) load list the sizing engine works on:
`includeLoadIds` restriction or `includeInBatteryCalc`, then appended proposed EV
loads, then partial-home hour overrides. -/
def sizingFilteredLoads (loads : List Load) (o : SizingOptions) : List Load :=
  let base :=
    loads.filter (fun l =>
      match o.includeLoadIds with
      | some ids => ids.contains l.id
      | none => l.usage.includeInBatteryCalc)
  let withEV :=
    match o.proposedEVLoads with
    | some evs => if 0 < evs.length then base ++ evs else base
    | none => base
  match o.partialSelections with
  | some sels =>
    withEV.map (fun l =>
      match lookupSelection sels l.id with
      | some h => { l with usage := { l.usage with hoursPerDay := h } }
      | none => l)
  | none => withEV

/-- The practical load aggregate of the filtered list. -/
def sizingPractical (loads : List Load) (o : SizingOptions) : PracticalResult :=
  calculatePracticalLoad (sizingFilteredLoads loads o) none

/-- `totalEnergyNeededKWh`: daily energy times backup days, reduced by the solar
offset when positive, floored at 0. -/
def sizingEnergyKWh (loads : List Load) (backupDays : ℚ) (o : SizingOptions) : ℚ :=
  let e := (sizingPractical loads o).totalDailyKWh * backupDays
  let e2 := if 0 < o.solarOffsetPercent then e * (1 - o.solarOffsetPercent / 100) else e
  max 0 e2

/-- `peakPowerKW`: total running kW of the filtered list. -/
def sizingPeakKW (loads : List Load) (o : SizingOptions) : ℚ :=
  (sizingPractical loads o).totalRunningKW

/-- The motor loads of the filtered list. -/
def sizingMotorLoads (loads : List Load) (o : SizingOptions) : List Load :=
  (sizingFilteredLoads loads o).filter (fun l => l.motor.isMotor)

/-- `largestLRA`: largest declared LRA across the filtered motor loads. -/
def sizingLargestLRA (loads : List Load) (o : SizingOptions) : ℚ :=
  (sizingMotorLoads loads o).foldl (fun m l => max m (l.motor.lra.getD 0)) 0

/-- JS truthiness of `!l.motor.lra`: null or 0. -/
def lraFalsy : Option ℚ → Bool
  | none => true
  | some v => v == 0

/-- `hasUnknownMotorLRA`: some motor load has no (or zero) declared LRA. -/
def sizingHasUnknownLRA (loads : List Load) (o : SizingOptions) : Bool :=
  (sizingMotorLoads loads o).any (fun l => lraFalsy l.motor.lra && l.motor.isMotor)

/-- `checkFeasibility(count, maxUnits, label)`: feasibility flag and reason. -/
def checkFeasibility (count maxUnits : ℤ) (label : String) : Bool × Option String :=
  if maxUnits < count then
    (true, some ("Exceeds maximum configuration (" ++ toString maxUnits ++ " " ++ label ++ " max)"))
  else (false, none)

/-- Result record for the Enphase 5P configuration (no motor-start field). -/
structure E5PResult where
  count : ℤ
  forEnergy : ℤ
  forPower : ℤ
  totalKWh : ℚ
  totalKW : ℚ
  limitedBy : String
  motorStartWarning : Option String
  notFeasible : Bool
  reason : Option String
  deriving DecidableEq

/-- Result record for the Enphase 10C and Tesla PW3-only configurations. -/
structure SingleProductResult where
  count : ℤ
  forEnergy : ℤ
  forPower : ℤ
  forMotorStart : ℤ
  totalKWh : ℚ
  totalKW : ℚ
  limitedBy : String
  motorStartWarning : Option String
  notFeasible : Bool
  reason : Option String
  deriving DecidableEq

/-- Result record for the mixed Enphase configuration. -/
structure MixedResult where
  count10C : ℤ
  count5P : ℤ
  totalUnits : ℤ
  totalKWh : ℚ
  totalKW : ℚ
  notFeasible : Bool
  reason : Option String
  deriving DecidableEq

/-- Result record for the Tesla PW3 + expansions configuration. -/
structure PW3ExpResult where
  leaders : ℤ
  expansions : ℤ
  totalUnits : ℤ
  totalKWh : ℚ
  totalKW : ℚ
  exceedsMax : Bool
  notFeasible : Bool
  reason : Option String
  deriving DecidableEq

/-- The `summary` block of the sizing result. -/
structure SizingSummary where
  totalEnergyNeededKWh : ℚ
  peakPowerKW : ℚ
  backupDays : ℚ
  solarOffsetPercent : ℚ
  loadCount : ℕ
  largestLRA : ℚ
  hasUnknownMotorLRA : Bool
  deriving DecidableEq

/-- The full sizing result across the five battery configurations. -/
structure BatterySizingResults where
  enphase5P : E5PResult
  enphase10C : SingleProductResult
  enphase_mixed : MixedResult
  teslaPW3Only : SingleProductResult
  teslaPW3WithExpansions : PW3ExpResult
  summary : SizingSummary
  deriving DecidableEq

/-- The Enphase 5P block of `calculateBatterySizing`. -/
def enphase5PResult (specs : BatterySpecs) (energy peak : ℚ) (hasUnknown : Bool) :
    E5PResult :=
  let e5p := specs.enphase5P
  let forEnergy : ℤ := ⌈energy / e5p.usableKWh⌉
  let forPower : ℤ := ⌈peak / e5p.continuousKW⌉
  let count := max (max forEnergy forPower) 1
  let feas := checkFeasibility count e5p.maxUnits "units"
  { count := if feas.1 then count else min count e5p.maxUnits,
    forEnergy := forEnergy,
    forPower := forPower,
    totalKWh := ((min count e5p.maxUnits : ℤ) : ℚ) * e5p.usableKWh,
    totalKW := ((min count e5p.maxUnits : ℤ) : ℚ) * e5p.continuousKW,
    limitedBy := if forPower ≤ forEnergy then "Energy" else "Power",
    motorStartWarning :=
      if hasUnknown then some "Motor start capability not rated for 5P. Verify with Enphase."
      else none,
    notFeasible := feas.1,
    reason := feas.2 }

/-- The Enphase 10C block of `calculateBatterySizing`. -/
def enphase10CResult (specs : BatterySpecs) (energy peak lra : ℚ) (hasUnknown : Bool) :
    SingleProductResult :=
  let e10c := specs.enphase10C
  let forEnergy : ℤ := ⌈energy / e10c.usableKWh⌉
  let forPower : ℤ := ⌈peak / e10c.continuousKW⌉
  let forMotor : ℤ := if 0 < lra then ⌈lra / e10c.motorStartLRA⌉ else 0
  let count := max (max (max forEnergy forPower) forMotor) 1
  let feas := checkFeasibility count e10c.maxUnits "units"
  { count := if feas.1 then count else min count e10c.maxUnits,
    forEnergy := forEnergy,
    forPower := forPower,
    forMotorStart := forMotor,
    totalKWh := ((min count e10c.maxUnits : ℤ) : ℚ) * e10c.usableKWh,
    totalKW := ((min count e10c.maxUnits : ℤ) : ℚ) * e10c.continuousKW,
    limitedBy :=
      if forPower ≤ forEnergy ∧ forMotor ≤ forEnergy then "Energy"
      else if forMotor ≤ forPower then "Power" else "Motor Start",
    motorStartWarning :=
      if hasUnknown then some "Some motor loads have unknown LRA. Conservative estimates applied."
      else none,
    notFeasible := feas.1,
    reason := feas.2 }

/-- The mixed Enphase block: 10C units for power/motor-start, 5P units for the
remaining energy. -/
def enphaseMixedResult (specs : BatterySpecs) (energy peak lra : ℚ) : MixedResult :=
  let e5p := specs.enphase5P
  let e10c := specs.enphase10C
  let e10cForPower : ℤ := ⌈peak / e10c.continuousKW⌉
  let e10cForMotor : ℤ := if 0 < lra then ⌈lra / e10c.motorStartLRA⌉ else 0
  let mixedPowerUnits10C := max (max e10cForPower e10cForMotor) 1
  let mixedEnergyFrom10C := (mixedPowerUnits10C : ℚ) * e10c.usableKWh
  let remainingEnergy := max 0 (energy - mixedEnergyFrom10C)
  let additional5P : ℤ :=
    if 0 < remainingEnergy then ⌈remainingEnergy / e5p.usableKWh⌉ else 0
  let mixedTotal := mixedPowerUnits10C + additional5P
  { count10C := mixedPowerUnits10C,
    count5P := additional5P,
    totalUnits := mixedTotal,
    totalKWh := (mixedPowerUnits10C : ℚ) * e10c.usableKWh + (additional5P : ℚ) * e5p.usableKWh,
    totalKW := (mixedPowerUnits10C : ℚ) * e10c.continuousKW + (additional5P : ℚ) * e5p.continuousKW,
    notFeasible := if mixedTotal ≤ e10c.maxUnits + e5p.maxUnits then false else true,
    reason :=
      if mixedTotal ≤ e10c.maxUnits + e5p.maxUnits then none
      else some "Exceeds maximum combined unit count" }

/-- The Tesla PW3-only block: leaders sized for power/motor-start are capped at
`maxLeaders` before being combined with the energy requirement. -/
def teslaPW3OnlyResult (specs : BatterySpecs) (energy peak lra : ℚ) (hasUnknown : Bool) :
    SingleProductResult :=
  let pw3 := specs.teslaPW3
  let pw3ForPower : ℤ := ⌈peak / pw3.continuousKW⌉
  let pw3ForMotor : ℤ := if 0 < lra then ⌈lra / pw3.motorStartLRA⌉ else 0
  let pw3Leaders := max (max pw3ForPower pw3ForMotor) 1
  let pw3LeadersCapped := min pw3Leaders pw3.maxLeaders
  let pw3OnlyForEnergy : ℤ := ⌈energy / pw3.usableKWh⌉
  let pw3OnlyCount := max pw3OnlyForEnergy pw3LeadersCapped
  let feas := checkFeasibility pw3OnlyCount pw3.maxLeaders "PW3"
  let pw3OnlyCapped := min pw3OnlyCount pw3.maxLeaders
  { count := if feas.1 then pw3OnlyCount else pw3OnlyCapped,
    forEnergy := pw3OnlyForEnergy,
    forPower := pw3ForPower,
    forMotorStart := pw3ForMotor,
    totalKWh := (pw3OnlyCapped : ℚ) * pw3.usableKWh,
    totalKW := (pw3OnlyCapped : ℚ) * pw3.continuousKW,
    limitedBy :=
      if pw3ForPower ≤ pw3OnlyForEnergy ∧ pw3ForMotor ≤ pw3OnlyForEnergy then "Energy"
      else if pw3ForMotor ≤ pw3ForPower then "Power" else "Motor Start",
    motorStartWarning :=
      if hasUnknown then some "Some motor loads have unknown LRA. Conservative estimates applied."
      else none,
    notFeasible := feas.1,
    reason := feas.2 }

/-- The Tesla PW3 + expansions block. -/
def teslaPW3WithExpansionsResult (specs : BatterySpecs) (energy peak lra : ℚ) :
    PW3ExpResult :=
  let pw3 := specs.teslaPW3
  let pw3exp := specs.teslaPW3Expansion
  let pw3ForPower : ℤ := ⌈peak / pw3.continuousKW⌉
  let pw3ForMotor : ℤ := if 0 < lra then ⌈lra / pw3.motorStartLRA⌉ else 0
  let pw3LeadersCapped := min (max (max pw3ForPower pw3ForMotor) 1) pw3.maxLeaders
  let leaderEnergyKWh := (pw3LeadersCapped : ℚ) * pw3.usableKWh
  let remainingEnergyTesla := max 0 (energy - leaderEnergyKWh)
  let expansionsNeeded : ℤ :=
    if 0 < remainingEnergyTesla then ⌈remainingEnergyTesla / pw3exp.usableKWh⌉ else 0
  let maxExpansions := pw3LeadersCapped * pw3exp.maxPerLeader
  let expansionsCapped := min expansionsNeeded maxExpansions
  let teslaExceedsMax := if maxExpansions < expansionsNeeded then true else false
  { leaders := pw3LeadersCapped,
    expansions := expansionsCapped,
    totalUnits := pw3LeadersCapped + expansionsCapped,
    totalKWh := (pw3LeadersCapped : ℚ) * pw3.usableKWh + (expansionsCapped : ℚ) * pw3exp.usableKWh,
    totalKW := (pw3LeadersCapped : ℚ) * pw3.continuousKW,
    exceedsMax := teslaExceedsMax,
    notFeasible := teslaExceedsMax,
    reason :=
      if maxExpansions < expansionsNeeded then
        some ("Needs " ++ toString expansionsNeeded ++ " expansions but max is " ++
          toString maxExpansions ++ " (" ++ toString pw3exp.maxPerLeader ++ " per leader)")
      else none }

/-- `calculateBatterySizing(loads, backupDays, options)` from
`src/utils/calculations.js`, parameterized by the static spec table. -/
def calculateBatterySizing (specs : BatterySpecs) (loads : List Load)
    (backupDays : ℚ) (o : SizingOptions) : BatterySizingResults :=
  let energy := sizingEnergyKWh loads backupDays o
  let peak := sizingPeakKW loads o
  let lra := sizingLargestLRA loads o
  let hasUnknown := sizingHasUnknownLRA loads o
  { enphase5P := enphase5PResult specs energy peak hasUnknown,
    enphase10C := enphase10CResult specs energy peak lra hasUnknown,
    enphase_mixed := enphaseMixedResult specs energy peak lra,
    teslaPW3Only := teslaPW3OnlyResult specs energy peak lra hasUnknown,
    teslaPW3WithExpansions := teslaPW3WithExpansionsResult specs energy peak lra,
    summary :=
      { totalEnergyNeededKWh := (jsRound (energy * 10) : ℚ) / 10,
        peakPowerKW := (jsRound (peak * 10) : ℚ) / 10,
        backupDays := backupDays,
        solarOffsetPercent := o.solarOffsetPercent,
        loadCount := (sizingFilteredLoads loads o).length,
        largestLRA := lra,
        hasUnknownMotorLRA := hasUnknown } }

/-! ## EV feasibility evaluator (`calculateEVFeasibility`) -/

/-- A catalog (or custom) EV charger option. -/
structure Charger where
  label : String
  isCustom : Bool
  continuousAmps : ℚ
  recommendedBreakerAmps : ℚ
  deriving DecidableEq

/-- The `ev` section of the project snapshot. -/
structure EVSection where
  chargerOption : Option Charger
  customContinuousAmps : Option ℚ
  chargerCount : Option ℤ
  deriving DecidableEq

/-- The project snapshot fields read by `calculateEVFeasibility`. -/
structure Project where
  service : Service
  panel : Panel
  ev : EVSection
  loads : List Load
  deriving DecidableEq

/-- Result record of `calculateEVFeasibility` (the source also returns `evWatts`,
an exact alias of `evWattsTotal`, omitted here). -/
structure EVResult where
  continuousAmps : ℚ
  breakerAmps : ℚ
  evWattsEach : ℚ
  evWattsTotal : ℚ
  chargerCount : ℤ
  slotsNeeded : ℤ
  hasSpace : Bool
  canUseTandems : Bool
  necWithoutEV : NECResult
  necWithEV : NECResult
  recommendation : String
  availableSlots : ℤ
  deriving DecidableEq

/-- One synthetic 2-pole EV charger load; the JS object carries only `category`,
`usage.assumedWatts`/`includeInServiceCalc`, `breaker.poles` and `motor.isMotor`,
and no other field of it is read downstream. -/
def evSyntheticLoad (evWattsEach : ℚ) : Load :=
  { id := "",
    category := "EV Charger",
    breaker := { poles := 2, amps := 0, btype := "Standard", voltageOverride := none },
    usage := { assumedWatts := evWattsEach, hoursPerDay := 0,
               includeInServiceCalc := true, includeInBatteryCalc := false },
    motor := { isMotor := false, lra := none } }

/-- `calculateEVFeasibility(project)` from `src/utils/calculations.js`. -/
def calculateEVFeasibility (project : Project) : Option EVResult :=
  match project.ev.chargerOption with
  | none => none
  | some charger =>
    let continuousAmps :=
      if charger.isCustom then project.ev.customContinuousAmps.getD 0
      else charger.continuousAmps
    let breakerAmps : ℚ :=
      if charger.isCustom then (⌈continuousAmps * 1.25 / 5⌉ : ℚ) * 5
      else charger.recommendedBreakerAmps
    let count := jsOrInt project.ev.chargerCount 1
    let evWattsEach := continuousAmps * project.service.serviceVoltage
    let evWattsTotal := evWattsEach * (count : ℚ)
    let necResult := calculateNECOptionalMethod project.loads project.service none
    let evSyntheticLoads := List.replicate count.toNat (evSyntheticLoad evWattsEach)
    let necWithEV :=
      calculateNECOptionalMethod (project.loads ++ evSyntheticLoads) project.service none
    let modeledUsedSlots :=
      if 0 < project.loads.length then calculateModeledSlots project.loads
      else project.panel.usedSlots
    let computedAvailableSlots := max 0 (project.panel.totalSlots - modeledUsedSlots)
    let panelSlots := calculatePanelSlots project.panel
    let slotsNeeded := 2 * count
    let hasSpace := decide (slotsNeeded ≤ computedAvailableSlots)
    some
      { continuousAmps := continuousAmps,
        breakerAmps := breakerAmps,
        evWattsEach := evWattsEach,
        evWattsTotal := evWattsTotal,
        chargerCount := count,
        slotsNeeded := slotsNeeded,
        hasSpace := hasSpace,
        canUseTandems := panelSlots.canFreeSlotsWithTandems,
        necWithoutEV := necResult,
        necWithEV := necWithEV,
        recommendation :=
          if necWithEV.status == "Undersized" then "Service upgrade recommended"
          else if !hasSpace && !panelSlots.canFreeSlotsWithTandems then "Subpanel recommended"
          else if !hasSpace && panelSlots.canFreeSlotsWithTandems then "Requires tandems to free space"
          else if necWithEV.status == "Borderline" then "Feasible but borderline capacity"
          else "Add as-is",
        availableSlots := computedAvailableSlots }

/-- The spec's five recommendation tiers (§4.5), first match wins, in the spec's
order and with the spec's conditions.  Stated from the spec's words for
comparison with the implementation. -/
def recommendationTiers (undersized hasSpace canFree borderline : Bool) : String :=
  if undersized then "Service upgrade recommended"
  else if !hasSpace && !canFree then "Subpanel recommended"
  else if !hasSpace && canFree then "Requires tandems to free space"
  else if hasSpace && borderline then "Feasible but borderline capacity"
  else "Add as-is"

/-! ## Shared concrete fixtures for witnesses -/

/-- A 240 V / 200 A service. -/
def stdService : Service :=
  { serviceVoltage := 240, mainBreakerAmps := 200, busRatingAmps := 200 }

/-- A 40-space panel with 20 used spaces and no tandems. -/
def stdPanel : Panel :=
  { totalSlots := 40, usedSlots := 20, tandemSlotsUsed := 0,
    tandemsAllowed := "Not Allowed",
    tandemPolicy := { allowedPositions := "All slots", customMaxTandemSlots := none } }

/-- A plain non-motor 2-pole load of the given category, watts and hours. -/
def mkLoad (id category : String) (watts hours : ℚ) : Load :=
  { id := id, category := category,
    breaker := { poles := 2, amps := 30, btype := "Standard", voltageOverride := none },
    usage := { assumedWatts := watts, hoursPerDay := hours,
               includeInServiceCalc := true, includeInBatteryCalc := true },
    motor := { isMotor := false, lra := none } }

/-- The single 1500 W / 2 h load of the C9 scenario; `Hot Tub` matches no NEC
bucket, so it lands in "other large loads". -/
def c9Load : Load := mkLoad "L1" "Hot Tub" 1500 2

/-- Replace a load's assumed watts, leaving everything else unchanged. -/
def setWatts (l : Load) (w : ℚ) : Load :=
  { l with usage := { l.usage with assumedWatts := w } }

/-! ## Claims -/

/-- C1, amended: the engine's `availableSlots` is the raw `totalSlots − usedSlots`
for every panel — `tandemSlotsUsed` is not subtracted and the value is not
floored at 0 (the clamped formula of the claim is computed separately by the UI
layer, outside the calculation engine). -/
theorem availableSlots_eq_total_sub_used (panel : Panel) :
    (calculatePanelSlots panel).availableSlots = panel.totalSlots - panel.usedSlots := rfl

/-- C1 counterexample: a panel with `totalSlots = 40`, `usedSlots = 45` yields
`availableSlots = −5`, not the claimed 0. -/
theorem availableSlots_negative_cex :
    (calculatePanelSlots
      { totalSlots := 40, usedSlots := 45, tandemSlotsUsed := 0,
        tandemsAllowed := "Not Allowed",
        tandemPolicy := { allowedPositions := "All slots",
                          customMaxTandemSlots := none } }).availableSlots = -5 ∧
    (calculatePanelSlots
      { totalSlots := 40, usedSlots := 45, tandemSlotsUsed := 0,
        tandemsAllowed := "Not Allowed",
        tandemPolicy := { allowedPositions := "All slots",
                          customMaxTandemSlots := none } }).availableSlots ≠ 0 := by
  constructor <;> decide

/-- C8: the general demand factor is the identity up to 10000 VA, and taxes the
excess at 40%: `demandGeneralFn 10000 = 10000` and `demandGeneralFn 10001 = 10000.4`. -/
theorem demand_factor_boundary :
    (∀ g : ℚ, g ≤ 10000 → demandGeneralFn g = g) ∧
    demandGeneralFn 10000 = 10000 ∧ demandGeneralFn 10001 = 10000.4 := by
  refine ⟨fun g hg => ?_, ?_, ?_⟩
  · simp [demandGeneralFn, hg]
  · norm_num [demandGeneralFn]
  · norm_num [demandGeneralFn]

/-- Witness for C8 at `generalTotal = 9999`. -/
theorem demand_factor_boundary_witness :
    (9999 : ℚ) ≤ 10000 ∧ demandGeneralFn 9999 = 9999 :=
  ⟨by norm_num, demand_factor_boundary.1 9999 (by norm_num)⟩

/-- C10: when no EV charger option is selected, `calculateEVFeasibility` returns
null regardless of every other field of the project snapshot. -/
theorem ev_feasibility_null_without_charger (project : Project)
    (h : project.ev.chargerOption = none) : calculateEVFeasibility project = none := by
  unfold calculateEVFeasibility
  rw [h]

/-- Witness for C10 at a concrete project with no charger selected. -/
theorem ev_feasibility_null_without_charger_witness :
    ({ service := stdService, panel := stdPanel,
       ev := { chargerOption := none, customContinuousAmps := none, chargerCount := none },
       loads := [] } : Project).ev.chargerOption = none ∧
    calculateEVFeasibility
      { service := stdService, panel := stdPanel,
        ev := { chargerOption := none, customContinuousAmps := none, chargerCount := none },
        loads := [] } = none :=
  ⟨rfl, ev_feasibility_null_without_charger _ rfl⟩

/-- The implementation's recommendation if-chain equals the spec's first-match
tier cascade, for all boolean inputs. -/
lemma codeCascade_eq_tiers (u h c b : Bool) :
    (if u = true then "Service upgrade recommended"
     else if (!h && !c) = true then "Subpanel recommended"
     else if (!h && c) = true then "Requires tandems to free space"
     else if b = true then "Feasible but borderline capacity"
     else "Add as-is") = recommendationTiers u h c b := by
  cases u <;> cases h <;> cases c <;> cases b <;> simp [recommendationTiers]

/-- The tier cascade always produces one of the five tier strings. -/
lemma tiers_total (u h c b : Bool) :
    recommendationTiers u h c b = "Service upgrade recommended" ∨
    recommendationTiers u h c b = "Subpanel recommended" ∨
    recommendationTiers u h c b = "Requires tandems to free space" ∨
    recommendationTiers u h c b = "Feasible but borderline capacity" ∨
    recommendationTiers u h c b = "Add as-is" := by
  cases u <;> cases h <;> cases c <;> cases b <;> simp [recommendationTiers]

/-- C5: with an EV charger selected, the returned recommendation is exactly the
spec's first-match cascade over (Undersized?, has-space?, can-free-with-tandems?,
Borderline?): exactly one of the five tiers is produced, and an Undersized
with-EV status always yields `Service upgrade recommended` regardless of the
panel-space state. -/
theorem ev_recommendation_cascade (project : Project) (charger : Charger)
    (h : project.ev.chargerOption = some charger) :
    ∃ res, calculateEVFeasibility project = some res ∧
      res.recommendation =
        recommendationTiers (res.necWithEV.status == "Undersized") res.hasSpace
          res.canUseTandems (res.necWithEV.status == "Borderline") ∧
      (res.necWithEV.status = "Undersized" →
        res.recommendation = "Service upgrade recommended") ∧
      (res.recommendation = "Service upgrade recommended" ∨
       res.recommendation = "Subpanel recommended" ∨
       res.recommendation = "Requires tandems to free space" ∨
       res.recommendation = "Feasible but borderline capacity" ∨
       res.recommendation = "Add as-is") := by
  have key : ∀ res : EVResult,
      res.recommendation =
        recommendationTiers (res.necWithEV.status == "Undersized") res.hasSpace
          res.canUseTandems (res.necWithEV.status == "Borderline") →
      (res.necWithEV.status = "Undersized" →
        res.recommendation = "Service upgrade recommended") ∧
      (res.recommendation = "Service upgrade recommended" ∨
       res.recommendation = "Subpanel recommended" ∨
       res.recommendation = "Requires tandems to free space" ∨
       res.recommendation = "Feasible but borderline capacity" ∨
       res.recommendation = "Add as-is") := by
    intro res hrec
    constructor
    · intro hs
      rw [hrec, hs]
      simp [recommendationTiers]
    · rw [hrec]
      exact tiers_total _ _ _ _
  unfold calculateEVFeasibility
  rw [h]
  refine ⟨_, rfl, ?_⟩
  have hrec := codeCascade_eq_tiers
    ((calculateNECOptionalMethod
        (project.loads ++
          List.replicate (jsOrInt project.ev.chargerCount 1).toNat
            (evSyntheticLoad
              ((if charger.isCustom then project.ev.customContinuousAmps.getD 0
                else charger.continuousAmps) * project.service.serviceVoltage)))
        project.service none).status == "Undersized")
    (decide (2 * jsOrInt project.ev.chargerCount 1 ≤
      max 0 (project.panel.totalSlots -
        if 0 < project.loads.length then calculateModeledSlots project.loads
        else project.panel.usedSlots)))
    (calculatePanelSlots project.panel).canFreeSlotsWithTandems
    ((calculateNECOptionalMethod
        (project.loads ++
          List.replicate (jsOrInt project.ev.chargerCount 1).toNat
            (evSyntheticLoad
              ((if charger.isCustom then project.ev.customContinuousAmps.getD 0
                else charger.continuousAmps) * project.service.serviceVoltage)))
        project.service none).status == "Borderline")
  exact ⟨hrec, (key _ hrec).1, (key _ hrec).2⟩

/-- Witness for C5 at a concrete project with a selected 48 A catalog charger. -/
theorem ev_recommendation_cascade_witness :
    ({ service := stdService, panel := stdPanel,
       ev := { chargerOption := some { label := "60A breaker / 48A charging",
                                       isCustom := false, continuousAmps := 48,
                                       recommendedBreakerAmps := 60 },
               customContinuousAmps := none, chargerCount := some 1 },
       loads := [] } : Project).ev.chargerOption =
      some { label := "60A breaker / 48A charging", isCustom := false,
             continuousAmps := 48, recommendedBreakerAmps := 60 } ∧
    ∃ res, calculateEVFeasibility
        { service := stdService, panel := stdPanel,
          ev := { chargerOption := some { label := "60A breaker / 48A charging",
                                          isCustom := false, continuousAmps := 48,
                                          recommendedBreakerAmps := 60 },
                  customContinuousAmps := none, chargerCount := some 1 },
          loads := [] } = some res ∧
      res.recommendation =
        recommendationTiers (res.necWithEV.status == "Undersized") res.hasSpace
          res.canUseTandems (res.necWithEV.status == "Borderline") ∧
      (res.necWithEV.status = "Undersized" →
        res.recommendation = "Service upgrade recommended") ∧
      (res.recommendation = "Service upgrade recommended" ∨
       res.recommendation = "Subpanel recommended" ∨
       res.recommendation = "Requires tandems to free space" ∨
       res.recommendation = "Feasible but borderline capacity" ∨
       res.recommendation = "Add as-is") :=
  ⟨rfl, ev_recommendation_cascade _ _ rfl⟩

/-- C9: 240 V / 200 A service, sqft 2000, one 1500 W load outside every bucket:
general lighting 6000 VA, generalTotal 10500, demandGeneral 10200, other-large
1500, total demand 11700 VA, serviceAmps 48.8, utilization 24%, status OK. -/
theorem nec_scenario_ok :
    necGeneralLoadVA [c9Load] (some 2000) = 6000 ∧
    necGeneralTotal [c9Load] (some 2000) = 10500 ∧
    demandGeneralFn (necGeneralTotal [c9Load] (some 2000)) = 10200 ∧
    necOtherLargeVA [c9Load] = 1500 ∧
    (calculateNECOptionalMethod [c9Load] stdService (some 2000)).totalDemandVA = 11700 ∧
    (calculateNECOptionalMethod [c9Load] stdService (some 2000)).serviceAmps = 48.8 ∧
    (calculateNECOptionalMethod [c9Load] stdService (some 2000)).ratioPercent = 24 ∧
    (calculateNECOptionalMethod [c9Load] stdService (some 2000)).status = "OK" := by
  have h1 : isFixedCategory "Hot Tub" = false := by decide
  have h2 : isCookingCategory "Hot Tub" = false := by decide
  have h3 : isCoolingCategory "Hot Tub" = false := by decide
  have h4 : isHeatingCategory "Hot Tub" = false := by decide
  have h5 : isOtherLargeCategory "Hot Tub" = true := by decide
  have h6 : ("Hot Tub" == "Electric Dryer") = false := by decide
  have h7 : ("Hot Tub" == "EV Charger") = false := by decide
  have hgen : necGeneralLoadVA [c9Load] (some 2000) = 6000 := by
    norm_num [necGeneralLoadVA]
  have hgt : necGeneralTotal [c9Load] (some 2000) = 10500 := by
    rw [necGeneralTotal, hgen]; norm_num
  have hdg : demandGeneralFn 10500 = 10200 := by norm_num [demandGeneralFn]
  have hfix : necFixedLoadVA [c9Load] = 0 := by
    simp [necFixedLoadVA, c9Load, mkLoad, h1, sumAssumedWatts]
  have hcook : necCookingDemand [c9Load] = 0 := by
    simp [necCookingDemand, c9Load, mkLoad, h2]
  have hdry : necDryerDemand [c9Load] = 0 := by
    simp [necDryerDemand, c9Load, mkLoad, h6]
  have hhvac : necHvacDemand [c9Load] = 0 := by
    simp [necHvacDemand, c9Load, mkLoad, h3, h4, sumAssumedWatts]
  have hoth : necOtherLargeVA [c9Load] = 1500 := by
    simp [necOtherLargeVA, c9Load, mkLoad, h5, sumAssumedWatts]
  have hev : necEvVA [c9Load] = 0 := by
    simp [necEvVA, c9Load, mkLoad, h7, sumAssumedWatts]
  have htot : necTotalDemandVA [c9Load] (some 2000) = 11700 := by
    rw [necTotalDemandVA, hgt, hdg, hfix, hcook, hdry, hhvac, hoth, hev]; norm_num
  refine ⟨hgen, hgt, by rw [hgt]; exact hdg, hoth, ?_, ?_, ?_, ?_⟩
  · simpa [calculateNECOptionalMethod] using htot
  · simp only [calculateNECOptionalMethod, htot, stdService]
    norm_num [jsRound]
  · simp only [calculateNECOptionalMethod, htot, stdService]
    norm_num [jsRound]
  · simp only [calculateNECOptionalMethod, htot, stdService]
    norm_num

/-- C6: two sizing runs that differ only in `solarOffsetPercent` produce identical
power-bound and motor-start-bound unit counts in every configuration reporting
them, and a positive solar offset only scales the energy requirement by
`(1 − solarOffsetPercent/100)`, floored at 0. -/
theorem solar_offset_power_invariant (specs : BatterySpecs) (loads : List Load)
    (days : ℚ) (o1 o2 : SizingOptions)
    (hids : o1.includeLoadIds = o2.includeLoadIds)
    (hev : o1.proposedEVLoads = o2.proposedEVLoads)
    (hsel : o1.partialSelections = o2.partialSelections) :
    (calculateBatterySizing specs loads days o1).enphase5P.forPower =
      (calculateBatterySizing specs loads days o2).enphase5P.forPower ∧
    (calculateBatterySizing specs loads days o1).enphase10C.forPower =
      (calculateBatterySizing specs loads days o2).enphase10C.forPower ∧
    (calculateBatterySizing specs loads days o1).enphase10C.forMotorStart =
      (calculateBatterySizing specs loads days o2).enphase10C.forMotorStart ∧
    (calculateBatterySizing specs loads days o1).teslaPW3Only.forPower =
      (calculateBatterySizing specs loads days o2).teslaPW3Only.forPower ∧
    (calculateBatterySizing specs loads days o1).teslaPW3Only.forMotorStart =
      (calculateBatterySizing specs loads days o2).teslaPW3Only.forMotorStart ∧
    (0 < o1.solarOffsetPercent →
      sizingEnergyKWh loads days o1 =
        max 0 ((sizingPractical loads o1).totalDailyKWh * days *
          (1 - o1.solarOffsetPercent / 100))) := by
  have hf : sizingFilteredLoads loads o1 = sizingFilteredLoads loads o2 := by
    unfold sizingFilteredLoads
    rw [hids, hev, hsel]
  have hp : sizingPeakKW loads o1 = sizingPeakKW loads o2 := by
    unfold sizingPeakKW sizingPractical
    rw [hf]
  have hl : sizingLargestLRA loads o1 = sizingLargestLRA loads o2 := by
    unfold sizingLargestLRA sizingMotorLoads
    rw [hf]
  refine ⟨?_, ?_, ?_, ?_, ?_, ?_⟩
  · simp only [calculateBatterySizing, enphase5PResult, hp]
  · simp only [calculateBatterySizing, enphase10CResult, hp]
  · simp only [calculateBatterySizing, enphase10CResult, hl]
  · simp only [calculateBatterySizing, teslaPW3OnlyResult, hp]
  · simp only [calculateBatterySizing, teslaPW3OnlyResult, hl]
  · intro hpos
    simp only [sizingEnergyKWh, if_pos hpos]

/-- Witness for C6: offsets 0 and 50 on a concrete one-load list. -/
theorem solar_offset_power_invariant_witness :
    ({ solarOffsetPercent := 50 } : SizingOptions).includeLoadIds =
      ({ solarOffsetPercent := 0 } : SizingOptions).includeLoadIds ∧
    ({ solarOffsetPercent := 50 } : SizingOptions).proposedEVLoads =
      ({ solarOffsetPercent := 0 } : SizingOptions).proposedEVLoads ∧
    ({ solarOffsetPercent := 50 } : SizingOptions).partialSelections =
      ({ solarOffsetPercent := 0 } : SizingOptions).partialSelections ∧
    ((calculateBatterySizing BATTERY_SPECS [mkLoad "W" "Well Pump" 1000 24] 1
        { solarOffsetPercent := 50 }).enphase5P.forPower =
      (calculateBatterySizing BATTERY_SPECS [mkLoad "W" "Well Pump" 1000 24] 1
        { solarOffsetPercent := 0 }).enphase5P.forPower ∧
     (calculateBatterySizing BATTERY_SPECS [mkLoad "W" "Well Pump" 1000 24] 1
        { solarOffsetPercent := 50 }).enphase10C.forPower =
      (calculateBatterySizing BATTERY_SPECS [mkLoad "W" "Well Pump" 1000 24] 1
        { solarOffsetPercent := 0 }).enphase10C.forPower ∧
     (calculateBatterySizing BATTERY_SPECS [mkLoad "W" "Well Pump" 1000 24] 1
        { solarOffsetPercent := 50 }).enphase10C.forMotorStart =
      (calculateBatterySizing BATTERY_SPECS [mkLoad "W" "Well Pump" 1000 24] 1
        { solarOffsetPercent := 0 }).enphase10C.forMotorStart ∧
     (calculateBatterySizing BATTERY_SPECS [mkLoad "W" "Well Pump" 1000 24] 1
        { solarOffsetPercent := 50 }).teslaPW3Only.forPower =
      (calculateBatterySizing BATTERY_SPECS [mkLoad "W" "Well Pump" 1000 24] 1
        { solarOffsetPercent := 0 }).teslaPW3Only.forPower ∧
     (calculateBatterySizing BATTERY_SPECS [mkLoad "W" "Well Pump" 1000 24] 1
        { solarOffsetPercent := 50 }).teslaPW3Only.forMotorStart =
      (calculateBatterySizing BATTERY_SPECS [mkLoad "W" "Well Pump" 1000 24] 1
        { solarOffsetPercent := 0 }).teslaPW3Only.forMotorStart ∧
     (0 < ({ solarOffsetPercent := 50 } : SizingOptions).solarOffsetPercent →
       sizingEnergyKWh [mkLoad "W" "Well Pump" 1000 24] 1 { solarOffsetPercent := 50 } =
         max 0 ((sizingPractical [mkLoad "W" "Well Pump" 1000 24]
             { solarOffsetPercent := 50 }).totalDailyKWh * 1 *
           (1 - ({ solarOffsetPercent := 50 } : SizingOptions).solarOffsetPercent / 100)))) :=
  ⟨rfl, rfl, rfl,
    solar_offset_power_invariant BATTERY_SPECS [mkLoad "W" "Well Pump" 1000 24] 1
      { solarOffsetPercent := 50 } { solarOffsetPercent := 0 } rfl rfl rfl⟩

/-- The reported `count` of a single-product block is always the unclamped
required count: when infeasible the source keeps it, and when feasible the
`min` with the cap is the count itself. -/
lemma count_unclamped (cnt maxU : ℤ) (label : String) :
    (if (checkFeasibility cnt maxU label).1 then cnt else min cnt maxU) = cnt := by
  unfold checkFeasibility
  by_cases h : maxU < cnt
  · simp [h]
  · simp [h]
    exact not_lt.mp h

/-- A conditional additional-unit count is bounded by its unconditional ceiling
when the remaining energy is nonnegative. -/
lemma if_pos_ceil_le (rem u : ℚ) (hu : 0 < u) (hrem : 0 ≤ rem) :
    (if 0 < rem then ⌈rem / u⌉ else 0) ≤ ⌈rem / u⌉ := by
  split
  · exact le_rfl
  · exact Int.ceil_nonneg (div_nonneg hrem (le_of_lt hu))

/-- The boolean infeasibility pattern `if T ≤ A then false else true` holds
exactly when the total `T` exceeds the cap `A`. -/
lemma notFeasible_iff_bool (T A : ℤ) :
    ((if T ≤ A then false else true) = true) ↔ A < T := by
  by_cases hh : T ≤ A
  · rw [if_pos hh]
    exact iff_of_false (by simp) (not_lt.mpr hh)
  · rw [if_neg hh]
    exact iff_of_true rfl (not_le.mp hh)

/-- C3, amended: the Enphase 5P and 10C counts are exactly
`max(ceil(energy/usableKWh), ceil(power/continuousKW), ceil(LRA/motorStartLRA)
when rated, 1)` with the claimed tie-breaking labels; the Tesla PW3-only count
instead caps the power/motor-start leader requirement at `maxLeaders` before
combining it with the energy requirement.  All three counts are at least 1. -/
theorem single_product_unit_counts (specs : BatterySpecs) (loads : List Load)
    (days : ℚ) (o : SizingOptions)
    (h5u : 0 < specs.enphase5P.usableKWh) (h5c : 0 < specs.enphase5P.continuousKW)
    (h10u : 0 < specs.enphase10C.usableKWh) (h10c : 0 < specs.enphase10C.continuousKW)
    (h10m : 0 < specs.enphase10C.motorStartLRA)
    (hpu : 0 < specs.teslaPW3.usableKWh) (hpc : 0 < specs.teslaPW3.continuousKW)
    (hpm : 0 < specs.teslaPW3.motorStartLRA) (hml : 1 ≤ specs.teslaPW3.maxLeaders) :
    ∀ energy peak lra : ℚ,
      energy = sizingEnergyKWh loads days o →
      peak = sizingPeakKW loads o →
      lra = sizingLargestLRA loads o →
      ((calculateBatterySizing specs loads days o).enphase5P.count =
          max (max ⌈energy / specs.enphase5P.usableKWh⌉
            ⌈peak / specs.enphase5P.continuousKW⌉) 1 ∧
        1 ≤ (calculateBatterySizing specs loads days o).enphase5P.count ∧
        (calculateBatterySizing specs loads days o).enphase5P.limitedBy =
          (if ⌈peak / specs.enphase5P.continuousKW⌉ ≤ ⌈energy / specs.enphase5P.usableKWh⌉
           then "Energy" else "Power")) ∧
      ((calculateBatterySizing specs loads days o).enphase10C.count =
          max (max (max ⌈energy / specs.enphase10C.usableKWh⌉
            ⌈peak / specs.enphase10C.continuousKW⌉)
            (if 0 < lra then ⌈lra / specs.enphase10C.motorStartLRA⌉ else 0)) 1 ∧
        1 ≤ (calculateBatterySizing specs loads days o).enphase10C.count ∧
        (calculateBatterySizing specs loads days o).enphase10C.limitedBy =
          (if ⌈peak / specs.enphase10C.continuousKW⌉ ≤ ⌈energy / specs.enphase10C.usableKWh⌉ ∧
              (if 0 < lra then ⌈lra / specs.enphase10C.motorStartLRA⌉ else 0) ≤
                ⌈energy / specs.enphase10C.usableKWh⌉
           then "Energy"
           else if (if 0 < lra then ⌈lra / specs.enphase10C.motorStartLRA⌉ else 0) ≤
               ⌈peak / specs.enphase10C.continuousKW⌉
           then "Power" else "Motor Start")) ∧
      ((calculateBatterySizing specs loads days o).teslaPW3Only.count =
          max ⌈energy / specs.teslaPW3.usableKWh⌉
            (min (max (max ⌈peak / specs.teslaPW3.continuousKW⌉
              (if 0 < lra then ⌈lra / specs.teslaPW3.motorStartLRA⌉ else 0)) 1)
              specs.teslaPW3.maxLeaders) ∧
        1 ≤ (calculateBatterySizing specs loads days o).teslaPW3Only.count ∧
        (calculateBatterySizing specs loads days o).teslaPW3Only.limitedBy =
          (if ⌈peak / specs.teslaPW3.continuousKW⌉ ≤ ⌈energy / specs.teslaPW3.usableKWh⌉ ∧
              (if 0 < lra then ⌈lra / specs.teslaPW3.motorStartLRA⌉ else 0) ≤
                ⌈energy / specs.teslaPW3.usableKWh⌉
           then "Energy"
           else if (if 0 < lra then ⌈lra / specs.teslaPW3.motorStartLRA⌉ else 0) ≤
               ⌈peak / specs.teslaPW3.continuousKW⌉
           then "Power" else "Motor Start")) := by
  intro energy peak lra he hp hl
  subst he hp hl
  refine ⟨⟨?_, ?_, rfl⟩, ⟨?_, ?_, rfl⟩, ⟨?_, ?_, rfl⟩⟩
  · simp only [calculateBatterySizing, enphase5PResult]
    exact count_unclamped _ _ _
  · simp only [calculateBatterySizing, enphase5PResult, count_unclamped]
    omega
  · simp only [calculateBatterySizing, enphase10CResult]
    exact count_unclamped _ _ _
  · simp only [calculateBatterySizing, enphase10CResult, count_unclamped]
    omega
  · simp only [calculateBatterySizing, teslaPW3OnlyResult]
    exact count_unclamped _ _ _
  · simp only [calculateBatterySizing, teslaPW3OnlyResult, count_unclamped]
    omega

/-- Witness for C3 at the modelled spec table and an empty load list. -/
theorem single_product_unit_counts_witness :
    ((0 : ℚ) < BATTERY_SPECS.enphase5P.usableKWh ∧
     (0 : ℚ) < BATTERY_SPECS.enphase5P.continuousKW ∧
     (0 : ℚ) < BATTERY_SPECS.enphase10C.usableKWh ∧
     (0 : ℚ) < BATTERY_SPECS.enphase10C.continuousKW ∧
     (0 : ℚ) < BATTERY_SPECS.enphase10C.motorStartLRA ∧
     (0 : ℚ) < BATTERY_SPECS.teslaPW3.usableKWh ∧
     (0 : ℚ) < BATTERY_SPECS.teslaPW3.continuousKW ∧
     (0 : ℚ) < BATTERY_SPECS.teslaPW3.motorStartLRA ∧
     (1 : ℤ) ≤ BATTERY_SPECS.teslaPW3.maxLeaders) ∧
    ((calculateBatterySizing BATTERY_SPECS [] 1 {}).enphase5P.count =
        max (max ⌈sizingEnergyKWh [] 1 {} / BATTERY_SPECS.enphase5P.usableKWh⌉
          ⌈sizingPeakKW [] {} / BATTERY_SPECS.enphase5P.continuousKW⌉) 1 ∧
      1 ≤ (calculateBatterySizing BATTERY_SPECS [] 1 {}).enphase5P.count ∧
      (calculateBatterySizing BATTERY_SPECS [] 1 {}).enphase5P.limitedBy =
        (if ⌈sizingPeakKW [] {} / BATTERY_SPECS.enphase5P.continuousKW⌉ ≤
            ⌈sizingEnergyKWh [] 1 {} / BATTERY_SPECS.enphase5P.usableKWh⌉
         then "Energy" else "Power")) :=
  ⟨⟨by norm_num [BATTERY_SPECS], by norm_num [BATTERY_SPECS], by norm_num [BATTERY_SPECS],
    by norm_num [BATTERY_SPECS], by norm_num [BATTERY_SPECS], by norm_num [BATTERY_SPECS],
    by norm_num [BATTERY_SPECS], by norm_num [BATTERY_SPECS], by norm_num [BATTERY_SPECS]⟩,
   (single_product_unit_counts BATTERY_SPECS [] 1 {}
      (by norm_num [BATTERY_SPECS]) (by norm_num [BATTERY_SPECS]) (by norm_num [BATTERY_SPECS])
      (by norm_num [BATTERY_SPECS]) (by norm_num [BATTERY_SPECS]) (by norm_num [BATTERY_SPECS])
      (by norm_num [BATTERY_SPECS]) (by norm_num [BATTERY_SPECS]) (by norm_num [BATTERY_SPECS])
      (sizingEnergyKWh [] 1 {}) (sizingPeakKW [] {}) (sizingLargestLRA [] {})
      rfl rfl rfl).1⟩

/-- C7: in the mixed Enphase configuration the 10C count covers power and motor
start alone (at least 1), the 5P count covers the energy left after the 10C
units' contribution (0 when none remains), the total never exceeds
`count10C + ceil(remaining/5P usable)`, and `notFeasible` flips exactly when the
total exceeds the combined maximum of both products. -/
theorem enphase_mixed_sizing (specs : BatterySpecs) (loads : List Load)
    (days : ℚ) (o : SizingOptions)
    (h5u : 0 < specs.enphase5P.usableKWh) (h10c : 0 < specs.enphase10C.continuousKW)
    (h10m : 0 < specs.enphase10C.motorStartLRA) :
    ∀ energy peak lra : ℚ,
      energy = sizingEnergyKWh loads days o →
      peak = sizingPeakKW loads o →
      lra = sizingLargestLRA loads o →
      ∀ c10 : ℤ,
        c10 = max (max ⌈peak / specs.enphase10C.continuousKW⌉
          (if 0 < lra then ⌈lra / specs.enphase10C.motorStartLRA⌉ else 0)) 1 →
      ∀ rem : ℚ,
        rem = max 0 (energy - (c10 : ℚ) * specs.enphase10C.usableKWh) →
      ((calculateBatterySizing specs loads days o).enphase_mixed.count10C = c10 ∧
       1 ≤ (calculateBatterySizing specs loads days o).enphase_mixed.count10C ∧
       (calculateBatterySizing specs loads days o).enphase_mixed.count5P =
         (if 0 < rem then ⌈rem / specs.enphase5P.usableKWh⌉ else 0) ∧
       (calculateBatterySizing specs loads days o).enphase_mixed.totalUnits ≤
         c10 + ⌈rem / specs.enphase5P.usableKWh⌉ ∧
       ((calculateBatterySizing specs loads days o).enphase_mixed.notFeasible = true ↔
         specs.enphase10C.maxUnits + specs.enphase5P.maxUnits <
           (calculateBatterySizing specs loads days o).enphase_mixed.totalUnits)) := by
  intro energy peak lra he hp hl c10 hc10 rem hrem
  subst he hp hl hc10 hrem
  refine ⟨rfl, ?_, rfl, ?_, ?_⟩
  · simp only [calculateBatterySizing, enphaseMixedResult]
    omega
  · simp only [calculateBatterySizing, enphaseMixedResult]
    exact add_le_add_left (if_pos_ceil_le _ _ h5u (le_max_left 0 _)) _
  · simp only [calculateBatterySizing, enphaseMixedResult]
    exact notFeasible_iff_bool _ _

/-- Witness for C7 at the modelled spec table and an empty load list. -/
theorem enphase_mixed_sizing_witness :
    ((0 : ℚ) < BATTERY_SPECS.enphase5P.usableKWh ∧
     (0 : ℚ) < BATTERY_SPECS.enphase10C.continuousKW ∧
     (0 : ℚ) < BATTERY_SPECS.enphase10C.motorStartLRA) ∧
    (calculateBatterySizing BATTERY_SPECS [] 1 {}).enphase_mixed.count10C =
      max (max ⌈sizingPeakKW [] {} / BATTERY_SPECS.enphase10C.continuousKW⌉
        (if 0 < sizingLargestLRA [] {} then
          ⌈sizingLargestLRA [] {} / BATTERY_SPECS.enphase10C.motorStartLRA⌉ else 0)) 1 :=
  ⟨⟨by norm_num [BATTERY_SPECS], by norm_num [BATTERY_SPECS], by norm_num [BATTERY_SPECS]⟩,
   (enphase_mixed_sizing BATTERY_SPECS [] 1 {}
      (by norm_num [BATTERY_SPECS]) (by norm_num [BATTERY_SPECS]) (by norm_num [BATTERY_SPECS])
      (sizingEnergyKWh [] 1 {}) (sizingPeakKW [] {}) (sizingLargestLRA [] {})
      rfl rfl rfl _ rfl _ rfl).1⟩

/-- The feasibility flag of `checkFeasibility` is set exactly when the count
exceeds the cap. -/
lemma checkFeasibility_fst (cnt maxU : ℤ) (label : String) :
    (checkFeasibility cnt maxU label).1 = true ↔ maxU < cnt := by
  unfold checkFeasibility
  by_cases h : maxU < cnt <;> simp [h]

/-- `checkFeasibility` carries a reason string whenever the count exceeds the cap. -/
lemma checkFeasibility_snd (cnt maxU : ℤ) (label : String) (h : maxU < cnt) :
    (checkFeasibility cnt maxU label).2 ≠ none := by
  unfold checkFeasibility
  simp [h]

/-- A cap is exceeded by `max a (min b cap)` exactly when it is exceeded by `a`. -/
lemma lt_max_min_iff (cap a b : ℤ) : cap < max a (min b cap) ↔ cap < a := by
  omega

/-- C4, amended: for the Enphase 5P and 10C configurations, `notFeasible` is set
exactly when the required count exceeds the product's maximum, with a reason
string, the unclamped required count retained in `count`, and delivered
totals computed from the capped count.  For the Tesla PW3-only configuration
`notFeasible` is set exactly when the energy-required count alone exceeds
`maxLeaders`: a power/motor-start requirement above `maxLeaders` is capped
silently and never sets the flag. -/
theorem notFeasible_flag_spec (specs : BatterySpecs) (loads : List Load)
    (days : ℚ) (o : SizingOptions) :
    ∀ energy peak lra : ℚ,
      energy = sizingEnergyKWh loads days o →
      peak = sizingPeakKW loads o →
      lra = sizingLargestLRA loads o →
      ∀ req5 : ℤ,
        req5 = max (max ⌈energy / specs.enphase5P.usableKWh⌉
          ⌈peak / specs.enphase5P.continuousKW⌉) 1 →
      ∀ req10 : ℤ,
        req10 = max (max (max ⌈energy / specs.enphase10C.usableKWh⌉
          ⌈peak / specs.enphase10C.continuousKW⌉)
          (if 0 < lra then ⌈lra / specs.enphase10C.motorStartLRA⌉ else 0)) 1 →
      (((calculateBatterySizing specs loads days o).enphase5P.notFeasible = true ↔
          specs.enphase5P.maxUnits < req5) ∧
        ((calculateBatterySizing specs loads days o).enphase5P.notFeasible = true →
          (calculateBatterySizing specs loads days o).enphase5P.reason ≠ none ∧
          (calculateBatterySizing specs loads days o).enphase5P.count = req5 ∧
          (calculateBatterySizing specs loads days o).enphase5P.totalKWh =
            (specs.enphase5P.maxUnits : ℚ) * specs.enphase5P.usableKWh ∧
          (calculateBatterySizing specs loads days o).enphase5P.totalKW =
            (specs.enphase5P.maxUnits : ℚ) * specs.enphase5P.continuousKW)) ∧
      (((calculateBatterySizing specs loads days o).enphase10C.notFeasible = true ↔
          specs.enphase10C.maxUnits < req10) ∧
        ((calculateBatterySizing specs loads days o).enphase10C.notFeasible = true →
          (calculateBatterySizing specs loads days o).enphase10C.reason ≠ none ∧
          (calculateBatterySizing specs loads days o).enphase10C.count = req10 ∧
          (calculateBatterySizing specs loads days o).enphase10C.totalKWh =
            (specs.enphase10C.maxUnits : ℚ) * specs.enphase10C.usableKWh ∧
          (calculateBatterySizing specs loads days o).enphase10C.totalKW =
            (specs.enphase10C.maxUnits : ℚ) * specs.enphase10C.continuousKW)) ∧
      (((calculateBatterySizing specs loads days o).teslaPW3Only.notFeasible = true ↔
          specs.teslaPW3.maxLeaders < ⌈energy / specs.teslaPW3.usableKWh⌉) ∧
        ((calculateBatterySizing specs loads days o).teslaPW3Only.notFeasible = true →
          (calculateBatterySizing specs loads days o).teslaPW3Only.reason ≠ none ∧
          (calculateBatterySizing specs loads days o).teslaPW3Only.count =
            max ⌈energy / specs.teslaPW3.usableKWh⌉
              (min (max (max ⌈peak / specs.teslaPW3.continuousKW⌉
                (if 0 < lra then ⌈lra / specs.teslaPW3.motorStartLRA⌉ else 0)) 1)
                specs.teslaPW3.maxLeaders) ∧
          (calculateBatterySizing specs loads days o).teslaPW3Only.totalKWh =
            (specs.teslaPW3.maxLeaders : ℚ) * specs.teslaPW3.usableKWh ∧
          (calculateBatterySizing specs loads days o).teslaPW3Only.totalKW =
            (specs.teslaPW3.maxLeaders : ℚ) * specs.teslaPW3.continuousKW)) := by
  intro energy peak lra he hp hl req5 hreq5 req10 hreq10
  subst he hp hl hreq5 hreq10
  refine ⟨⟨?_, ?_⟩, ⟨?_, ?_⟩, ⟨?_, ?_⟩⟩
  · simp only [calculateBatterySizing, enphase5PResult]
    exact checkFeasibility_fst _ _ _
  · intro h
    have hlt := (checkFeasibility_fst _ _ "units").mp
      (by simpa only [calculateBatterySizing, enphase5PResult] using h)
    refine ⟨?_, ?_, ?_, ?_⟩
    · simp only [calculateBatterySizing, enphase5PResult]
      exact checkFeasibility_snd _ _ _ hlt
    · simp only [calculateBatterySizing, enphase5PResult]
      exact count_unclamped _ _ _
    · simp only [calculateBatterySizing, enphase5PResult]
      rw [min_eq_right (le_of_lt hlt)]
    · simp only [calculateBatterySizing, enphase5PResult]
      rw [min_eq_right (le_of_lt hlt)]
  · simp only [calculateBatterySizing, enphase10CResult]
    exact checkFeasibility_fst _ _ _
  · intro h
    have hlt := (checkFeasibility_fst _ _ "units").mp
      (by simpa only [calculateBatterySizing, enphase10CResult] using h)
    refine ⟨?_, ?_, ?_, ?_⟩
    · simp only [calculateBatterySizing, enphase10CResult]
      exact checkFeasibility_snd _ _ _ hlt
    · simp only [calculateBatterySizing, enphase10CResult]
      exact count_unclamped _ _ _
    · simp only [calculateBatterySizing, enphase10CResult]
      rw [min_eq_right (le_of_lt hlt)]
    · simp only [calculateBatterySizing, enphase10CResult]
      rw [min_eq_right (le_of_lt hlt)]
  · simp only [calculateBatterySizing, teslaPW3OnlyResult]
    rw [checkFeasibility_fst]
    exact lt_max_min_iff _ _ _
  · intro h
    have hlt := (checkFeasibility_fst _ _ "PW3").mp
      (by simpa only [calculateBatterySizing, teslaPW3OnlyResult] using h)
    refine ⟨?_, ?_, ?_, ?_⟩
    · simp only [calculateBatterySizing, teslaPW3OnlyResult]
      exact checkFeasibility_snd _ _ _ hlt
    · simp only [calculateBatterySizing, teslaPW3OnlyResult]
      exact count_unclamped _ _ _
    · simp only [calculateBatterySizing, teslaPW3OnlyResult]
      rw [min_eq_right (le_of_lt hlt)]
    · simp only [calculateBatterySizing, teslaPW3OnlyResult]
      rw [min_eq_right (le_of_lt hlt)]

/-- Witness for C4 at the modelled spec table and an empty load list. -/
theorem notFeasible_flag_spec_witness :
    (calculateBatterySizing BATTERY_SPECS [] 1 {}).enphase5P.notFeasible = true ↔
      BATTERY_SPECS.enphase5P.maxUnits <
        max (max ⌈sizingEnergyKWh [] 1 {} / BATTERY_SPECS.enphase5P.usableKWh⌉
          ⌈sizingPeakKW [] {} / BATTERY_SPECS.enphase5P.continuousKW⌉) 1 :=
  ((notFeasible_flag_spec BATTERY_SPECS [] 1 {}
      (sizingEnergyKWh [] 1 {}) (sizingPeakKW [] {}) (sizingLargestLRA [] {})
      rfl rfl rfl _ rfl _ rfl).1).1

/-- The Tesla PW3-only block evaluated on a 115 kW peak-power, zero-energy load
list against the modelled spec table. -/
lemma teslaPW3Only_cex_eval :
    (calculateBatterySizing BATTERY_SPECS [mkLoad "P" "Hot Tub" 115000 0] 1
      {}).teslaPW3Only = teslaPW3OnlyResult BATTERY_SPECS 0 115 0 false := by
  have henergy : sizingEnergyKWh [mkLoad "P" "Hot Tub" 115000 0] 1 {} = 0 := by
    simp [sizingEnergyKWh, sizingPractical, sizingFilteredLoads, calculatePracticalLoad,
      mkLoad]
  have hpeak : sizingPeakKW [mkLoad "P" "Hot Tub" 115000 0] {} = 115 := by
    simp [sizingPeakKW, sizingPractical, sizingFilteredLoads, calculatePracticalLoad,
      mkLoad, sumAssumedWatts]
    norm_num
  have hlra : sizingLargestLRA [mkLoad "P" "Hot Tub" 115000 0] {} = 0 := by
    simp [sizingLargestLRA, sizingMotorLoads, sizingFilteredLoads, mkLoad]
  have hunk : sizingHasUnknownLRA [mkLoad "P" "Hot Tub" 115000 0] {} = false := by
    simp [sizingHasUnknownLRA, sizingMotorLoads, sizingFilteredLoads, mkLoad]
  simp only [calculateBatterySizing, henergy, hpeak, hlra, hunk]

/-- C3 counterexample: on the modelled table, a 115 kW peak-power load list makes
the Tesla PW3-only count 4 (power capped at `maxLeaders` first), not the claimed
`max(ceil(energy/usableKWh), ceil(power/continuousKW), ceil(LRA/motorStartLRA), 1) = 10`. -/
theorem teslaPW3Only_count_cex :
    (calculateBatterySizing BATTERY_SPECS [mkLoad "P" "Hot Tub" 115000 0] 1
      {}).teslaPW3Only.count = 4 ∧
    max (max (max ((calculateBatterySizing BATTERY_SPECS [mkLoad "P" "Hot Tub" 115000 0] 1
        {}).teslaPW3Only.forEnergy)
      ((calculateBatterySizing BATTERY_SPECS [mkLoad "P" "Hot Tub" 115000 0] 1
        {}).teslaPW3Only.forPower))
      ((calculateBatterySizing BATTERY_SPECS [mkLoad "P" "Hot Tub" 115000 0] 1
        {}).teslaPW3Only.forMotorStart)) 1 = 10 ∧
    (calculateBatterySizing BATTERY_SPECS [mkLoad "P" "Hot Tub" 115000 0] 1
      {}).teslaPW3Only.count ≠
    max (max (max ((calculateBatterySizing BATTERY_SPECS [mkLoad "P" "Hot Tub" 115000 0] 1
        {}).teslaPW3Only.forEnergy)
      ((calculateBatterySizing BATTERY_SPECS [mkLoad "P" "Hot Tub" 115000 0] 1
        {}).teslaPW3Only.forPower))
      ((calculateBatterySizing BATTERY_SPECS [mkLoad "P" "Hot Tub" 115000 0] 1
        {}).teslaPW3Only.forMotorStart)) 1 := by
  rw [teslaPW3Only_cex_eval]
  norm_num [teslaPW3OnlyResult, BATTERY_SPECS, checkFeasibility]

/-- C4 counterexample: on the same input the theoretical power requirement (10
leaders) exceeds `maxLeaders = 4`, yet `notFeasible` is false. -/
theorem teslaPW3Only_power_infeasible_cex :
    (calculateBatterySizing BATTERY_SPECS [mkLoad "P" "Hot Tub" 115000 0] 1
      {}).teslaPW3Only.notFeasible = false ∧
    BATTERY_SPECS.teslaPW3.maxLeaders <
      (calculateBatterySizing BATTERY_SPECS [mkLoad "P" "Hot Tub" 115000 0] 1
        {}).teslaPW3Only.forPower := by
  rw [teslaPW3Only_cex_eval]
  norm_num [teslaPW3OnlyResult, BATTERY_SPECS, checkFeasibility]

/-! ## C2: monotonicity of the NEC total demand -/

lemma foldl_add_watts (xs : List Load) :
    ∀ a : ℚ, xs.foldl (fun s l => s + l.usage.assumedWatts) a =
      a + (xs.map fun l => l.usage.assumedWatts).sum := by
  induction xs with
  | nil => intro a; simp
  | cons x xs ih =>
    intro a
    simp [ih]
    ring

lemma sumAssumedWatts_eq (xs : List Load) :
    sumAssumedWatts xs = (xs.map fun l => l.usage.assumedWatts).sum := by
  simpa using foldl_add_watts xs 0

/-- Raising one load's watts never lowers any bucket's filtered watt sum, for
any predicate unaffected by the watt change. -/
lemma filter_setWatts_sum_le (p : Load → Bool) (pre post : List Load) (l : Load)
    (w' : ℚ) (hp : p (setWatts l w') = p l) (hw : l.usage.assumedWatts ≤ w') :
    sumAssumedWatts ((pre ++ l :: post).filter p) ≤
      sumAssumedWatts ((pre ++ setWatts l w' :: post).filter p) := by
  simp only [sumAssumedWatts_eq, List.filter_append, List.filter_cons, hp,
    List.map_append, List.sum_append]
  cases h : p l <;> simp only [h, if_true, if_false, Bool.false_eq_true,
    List.map_cons, List.sum_cons, setWatts]
  · exact le_rfl
  · have : l.usage.assumedWatts + (List.map (fun l => l.usage.assumedWatts) (List.filter p post)).sum ≤
        w' + (List.map (fun l => l.usage.assumedWatts) (List.filter p post)).sum :=
      add_le_add_right hw _
    linarith

/-- A watt change never alters a bucket's filtered length. -/
lemma filter_setWatts_length_eq (p : Load → Bool) (pre post : List Load) (l : Load)
    (w' : ℚ) (hp : p (setWatts l w') = p l) :
    ((pre ++ l :: post).filter p).length =
      ((pre ++ setWatts l w' :: post).filter p).length := by
  simp only [List.filter_append, List.filter_cons, hp]
  cases h : p l <;> simp [h]

/-- A load outside a bucket can change watts without changing the bucket's
filtered list at all. -/
lemma filter_setWatts_eq_of_neg (p : Load → Bool) (pre post : List Load) (l : Load)
    (w' : ℚ) (hp : p (setWatts l w') = p l) (hpl : p l = false) :
    (pre ++ l :: post).filter p = (pre ++ setWatts l w' :: post).filter p := by
  simp only [List.filter_append, List.filter_cons, hp, hpl]
  simp

/-- C2, amended: raising the assumed watts of a single load never decreases the
NEC total demand, provided the load is not in the cooking bucket (whose
single-appliance 8000 VA cliff at 12000 W is decreasing) and not in the
general-lighting category (whose 4500 VA zero-sum fallback is decreasing). -/
theorem totalDemandVA_monotone (pre post : List Load) (l : Load) (w' : ℚ)
    (service : Service) (sqFt : Option ℚ)
    (hw : l.usage.assumedWatts ≤ w')
    (hc1 : l.category ≠ "Range/Oven") (hc2 : l.category ≠ "Cooktop")
    (hc3 : l.category ≠ "General Lighting/Receptacles") :
    (calculateNECOptionalMethod (pre ++ l :: post) service sqFt).totalDemandVA ≤
      (calculateNECOptionalMethod (pre ++ setWatts l w' :: post) service sqFt).totalDemandVA := by
  have hcookF : isCookingCategory l.category = false := by
    simp [isCookingCategory, hc1, hc2]
  have hlightF : (l.category == lightingCategory) = false := by
    simp [lightingCategory, hc3]
  -- general lighting: unchanged
  have hgen : necGeneralLoadVA (pre ++ l :: post) sqFt =
      necGeneralLoadVA (pre ++ setWatts l w' :: post) sqFt := by
    have hfl := filter_setWatts_eq_of_neg (fun ld => ld.category == lightingCategory)
      pre post l w' rfl hlightF
    unfold necGeneralLoadVA necLightingFallback
    cases sqFt <;> simp [hfl]
  have hdemgen : demandGeneralFn (necGeneralTotal (pre ++ l :: post) sqFt) =
      demandGeneralFn (necGeneralTotal (pre ++ setWatts l w' :: post) sqFt) := by
    unfold necGeneralTotal
    rw [hgen]
  -- fixed appliances: monotone
  have hfix : necFixedLoadVA (pre ++ l :: post) ≤
      necFixedLoadVA (pre ++ setWatts l w' :: post) := by
    have hlen := filter_setWatts_length_eq (fun ld => isFixedCategory ld.category)
      pre post l w' rfl
    have hsum := filter_setWatts_sum_le (fun ld => isFixedCategory ld.category)
      pre post l w' rfl hw
    simp only [necFixedLoadVA]
    rw [← hlen]
    split
    · exact mul_le_mul_of_nonneg_right hsum (by norm_num)
    · exact hsum
  -- cooking: unchanged (the load is outside the bucket)
  have hcook : necCookingDemand (pre ++ l :: post) =
      necCookingDemand (pre ++ setWatts l w' :: post) := by
    have hfl := filter_setWatts_eq_of_neg (fun ld => isCookingCategory ld.category)
      pre post l w' rfl hcookF
    simp only [necCookingDemand]
    rw [hfl]
  -- dryer: monotone
  have hdry : necDryerDemand (pre ++ l :: post) ≤
      necDryerDemand (pre ++ setWatts l w' :: post) := by
    have hlen := filter_setWatts_length_eq (fun ld => ld.category == "Electric Dryer")
      pre post l w' rfl
    have hsum := filter_setWatts_sum_le (fun ld => ld.category == "Electric Dryer")
      pre post l w' rfl hw
    simp only [necDryerDemand]
    rw [← hlen]
    split
    · exact max_le_max le_rfl hsum
    · exact le_rfl
  -- HVAC: monotone
  have hhvac : necHvacDemand (pre ++ l :: post) ≤
      necHvacDemand (pre ++ setWatts l w' :: post) := by
    unfold necHvacDemand
    exact max_le_max
      (filter_setWatts_sum_le (fun ld => isCoolingCategory ld.category) pre post l w' rfl hw)
      (filter_setWatts_sum_le (fun ld => isHeatingCategory ld.category) pre post l w' rfl hw)
  -- other large loads: monotone
  have hoth : necOtherLargeVA (pre ++ l :: post) ≤
      necOtherLargeVA (pre ++ setWatts l w' :: post) := by
    unfold necOtherLargeVA
    exact filter_setWatts_sum_le (fun ld => isOtherLargeCategory ld.category)
      pre post l w' rfl hw
  -- EV loads: monotone
  have hev : necEvVA (pre ++ l :: post) ≤ necEvVA (pre ++ setWatts l w' :: post) := by
    unfold necEvVA
    exact filter_setWatts_sum_le (fun ld => ld.category == "EV Charger")
      pre post l w' rfl hw
  show necTotalDemandVA (pre ++ l :: post) sqFt ≤
    necTotalDemandVA (pre ++ setWatts l w' :: post) sqFt
  unfold necTotalDemandVA
  exact add_le_add (add_le_add (add_le_add (add_le_add (add_le_add
    (add_le_add hdemgen.le hfix) hcook.le) hdry) hhvac) hoth) hev

/-- Witness for C2: raising a 1000 W non-cooking, non-lighting load to 2000 W. -/
theorem totalDemandVA_monotone_witness :
    (mkLoad "H" "Hot Tub" 1000 2).usage.assumedWatts ≤ (2000 : ℚ) ∧
    (mkLoad "H" "Hot Tub" 1000 2).category ≠ "Range/Oven" ∧
    (mkLoad "H" "Hot Tub" 1000 2).category ≠ "Cooktop" ∧
    (mkLoad "H" "Hot Tub" 1000 2).category ≠ "General Lighting/Receptacles" ∧
    (calculateNECOptionalMethod ([] ++ mkLoad "H" "Hot Tub" 1000 2 :: [])
        stdService (some 2000)).totalDemandVA ≤
      (calculateNECOptionalMethod ([] ++ setWatts (mkLoad "H" "Hot Tub" 1000 2) 2000 :: [])
        stdService (some 2000)).totalDemandVA :=
  ⟨by norm_num [mkLoad], by decide, by decide, by decide,
   totalDemandVA_monotone [] [] (mkLoad "H" "Hot Tub" 1000 2) 2000 stdService (some 2000)
     (by norm_num [mkLoad]) (by decide) (by decide) (by decide)⟩

/-- C2 counterexample: raising the single cooking load from 12000 W to 12001 W
drops the cooking demand from the flat 8000 VA to 0.65 × 12001 = 7800.65 VA, so
the total demand strictly decreases. -/
theorem totalDemandVA_cooking_decrease_cex :
    (mkLoad "R" "Range/Oven" 12000 2).usage.assumedWatts ≤
      (mkLoad "R" "Range/Oven" 12001 2).usage.assumedWatts ∧
    (calculateNECOptionalMethod [mkLoad "R" "Range/Oven" 12001 2] stdService
        (some 2000)).totalDemandVA <
      (calculateNECOptionalMethod [mkLoad "R" "Range/Oven" 12000 2] stdService
        (some 2000)).totalDemandVA := by
  have h1 : isFixedCategory "Range/Oven" = false := by decide
  have h2 : isCookingCategory "Range/Oven" = true := by decide
  have h3 : isCoolingCategory "Range/Oven" = false := by decide
  have h4 : isHeatingCategory "Range/Oven" = false := by decide
  have h5 : isOtherLargeCategory "Range/Oven" = false := by decide
  have h6 : ("Range/Oven" == "Electric Dryer") = false := by decide
  have h7 : ("Range/Oven" == "EV Charger") = false := by decide
  have h8 : ("Range/Oven" == lightingCategory) = false := by decide
  constructor
  · norm_num [mkLoad]
  · have key : ∀ w : ℚ, necTotalDemandVA [mkLoad "R" "Range/Oven" w 2] (some 2000) =
        10200 + necCookingDemand [mkLoad "R" "Range/Oven" w 2] := by
      intro w
      have hgen : necGeneralLoadVA [mkLoad "R" "Range/Oven" w 2] (some 2000) = 6000 := by
        norm_num [necGeneralLoadVA]
      have hdg : demandGeneralFn (necGeneralTotal [mkLoad "R" "Range/Oven" w 2] (some 2000)) =
          10200 := by
        rw [necGeneralTotal, hgen]
        norm_num [demandGeneralFn]
      have hfix : necFixedLoadVA [mkLoad "R" "Range/Oven" w 2] = 0 := by
        simp [necFixedLoadVA, mkLoad, h1, sumAssumedWatts]
      have hdry : necDryerDemand [mkLoad "R" "Range/Oven" w 2] = 0 := by
        simp [necDryerDemand, mkLoad, h6]
      have hhvac : necHvacDemand [mkLoad "R" "Range/Oven" w 2] = 0 := by
        simp [necHvacDemand, mkLoad, h3, h4, sumAssumedWatts]
      have hoth : necOtherLargeVA [mkLoad "R" "Range/Oven" w 2] = 0 := by
        simp [necOtherLargeVA, mkLoad, h5, sumAssumedWatts]
      have hev : necEvVA [mkLoad "R" "Range/Oven" w 2] = 0 := by
        simp [necEvVA, mkLoad, h7, sumAssumedWatts]
      rw [necTotalDemandVA, hdg, hfix, hdry, hhvac, hoth, hev]
      ring
    have hcookLo : necCookingDemand [mkLoad "R" "Range/Oven" 12000 2] = 8000 := by
      simp only [necCookingDemand, mkLoad, List.filter, h2, sumAssumedWatts]
      norm_num
    have hcookHi : necCookingDemand [mkLoad "R" "Range/Oven" 12001 2] = 7800.65 := by
      simp only [necCookingDemand, mkLoad, List.filter, h2, sumAssumedWatts]
      norm_num
    show necTotalDemandVA [mkLoad "R" "Range/Oven" 12001 2] (some 2000) <
      necTotalDemandVA [mkLoad "R" "Range/Oven" 12000 2] (some 2000)
    rw [key 12000, key 12001, hcookLo, hcookHi]
    norm_num

end LoadCalc
